import Mathlib

/-!
Shallow embedding of `src/port/stack_trace.cc` (rocksdb stack-trace facility),
for the Linux build with backtrace support compiled in (the `#else` branch of
the file) and without thread-sanitizer instrumentation.

Modelling conventions:
- Machine addresses are `Nat`; the true call stack of the calling thread is a
  list of addresses, most-recent-call-first, carried in an `Env` record
  together with the other operating-system-dependent inputs (result of
  `readlink` on the proc entry, `backtrace_symbols` availability, the byte
  stream produced by each `popen` of `addr2line`, the `ROCKSDB_DEBUG`
  environment variable, build flags, and the exit status of the forked gdb
  child).
- All `fprintf(stderr, ...)` writes, plus the two signal-state effects
  `signal(sig, SIG_DFL)` and `raise(sig)`, are modelled as an ordered event
  trace (`List Ev`); a function's output is the trace it appends, in order.
- `fork`/`execlp`/`waitpid` in `PrintStack` are modelled from the parent's
  point of view: the child's diagnostic notice is written before the exec,
  the parent blocks, and `Env.gdbSucceeds` records whether the child exited
  with `EXIT_SUCCESS`.  gdb's own output goes to the same sink but is
  external to this program and is not part of the trace.
- `free` calls are dropped (no heap in the model); ownership claims about
  them are not formalised here.
-/

/-- `kMaxFrames` in `PrintStack(int)` and `SaveStack`. -/
def kMaxFrames : Nat := 100

/-- `kLineMax` in `PrintStackTraceLine`: size of the `cmd` and `line` buffers. -/
def kLineMax : Nat := 256

/-- Linux signal numbers for the four registered signals. -/
def SIGILL : Nat := 4

def SIGABRT : Nat := 6

def SIGBUS : Nat := 7

def SIGSEGV : Nat := 11

/-- One step of the C `fgets` read: from a remaining input stream, take at
most `n` characters, stopping just after a newline.  Returns the chunk read
and the rest of the stream. -/
def takeLine : Nat → List Char → List Char × List Char
  | 0, rest => ([], rest)
  | _ + 1, [] => ([], [])
  | n + 1, c :: rest =>
    if c = '\n' then ([c], rest)
    else
      let p := takeLine n rest
      (c :: p.1, p.2)

/-- Model of `fgets(line, size, f)` on a stream: `none` at end of stream
(no characters left), otherwise the chunk of at most `size - 1` characters
read (stopping after a newline) together with the remaining stream. -/
def fgets (size : Nat) (input : List Char) : Option (List Char × List Char) :=
  match input with
  | [] => none
  | _ :: _ => some (takeLine (size - 1) input)

/-- The `while (fgets(...))` loop: all chunks read from the stream, in order.
Fuel-indexed; `readChunks` supplies enough fuel (each successful read consumes
at least one character). -/
def readChunksGo (size : Nat) : Nat → List Char → List (List Char)
  | 0, _ => []
  | fuel + 1, input =>
    match fgets size input with
    | none => []
    | some p => p.1 :: readChunksGo size fuel p.2

def readChunks (size : Nat) (input : List Char) : List (List Char) :=
  readChunksGo size input.length input

/-- Model of `line[strlen(line) - 1] = 0`: drop the last character of the
chunk (the code intends to strip the trailing newline). -/
def chopLast (l : List Char) : List Char := l.take (l.length - 1)

/-- Operating-system and build inputs of one capture-and-print episode. -/
structure Env where
  /-- The calling thread's call stack: return addresses, most recent first.
  `backtrace(buf, n)` captures `stack.take n`. -/
  stack : List Nat
  /-- Result of `GetExecutableName` (the `readlink("/proc/<pid>/exe")`
  outcome): `none` models the `-1` failure return. -/
  executable : Option String
  /-- `backtrace_symbols` result: `none` models a `nullptr` return, otherwise
  the symbol string produced for each address. -/
  symfn : Option (Nat → String)
  /-- For each frame address, the stream produced by
  `popen("addr2line <addr> -e <exe> -f -C 2>&1")`: `none` models `popen`
  returning `nullptr` (tool failed to launch). -/
  popenRaw : Nat → Option (List Char)
  /-- `getenv("ROCKSDB_DEBUG")`. -/
  debugEnv : Option String
  /-- Whether the build defines `ROCKSDB_DLL && OS_LINUX` (`linux_dll`). -/
  linuxDll : Bool
  /-- Whether the forked gdb child satisfies
  `WIFEXITED(wstatus) && WEXITSTATUS(wstatus) == EXIT_SUCCESS`. -/
  gdbSucceeds : Bool

/-- Observable events: `fprintf(stderr, ...)` writes and signal-state
effects, in program order. -/
inductive Ev where
  /-- `signal(sig, SIG_DFL)` in `StackTraceHandler`. -/
  | resetSignal : Nat → Ev
  /-- `fprintf(stderr, "Received signal %d (%s)\n", ...)`. -/
  | sigInfo : Nat → Ev
  /-- `fprintf(stderr, "#%-2d  ", i)`: the frame number printed before a line. -/
  | frameIdx : Nat → Ev
  /-- `fprintf(stderr, "%s ", symbol)`. -/
  | sym : String → Ev
  /-- One `addr2line` output line echoed by `fprintf(stderr, "%s\t", line)`. -/
  | transLine : String → Ev
  /-- `fprintf(stderr, " %p", frame)`: the raw-address fallback. -/
  | rawAddr : Nat → Ev
  /-- The `fprintf(stderr, "\n")` terminating one frame's line. -/
  | nl : Ev
  /-- `"Invoking GDB for debugging (ROCKSDB_DEBUG=...)..."` (child, debug mode). -/
  | gdbDebugNotice : Ev
  /-- `"Invoking GDB for stack trace..."` (child, stack-dump mode). -/
  | gdbStackNotice : Ev
  /-- `"GDB failed; falling back on backtrace+addr2line..."`. -/
  | gdbFallback : Ev
  /-- `raise(sig)` at the end of `StackTraceHandler`. -/
  | raiseSig : Nat → Ev
  deriving DecidableEq

/-- The optional `fprintf(stderr, "%s ", symbol)` at the start of
`PrintStackTraceLine`. -/
def symEvents : Option String → List Ev
  | some s => [Ev.sym s]
  | none => []

/-- `PrintStackTraceLine(symbol, frame)`, Linux variant (lines 81-105): print
the symbol if present; if the executable name is known, `popen` `addr2line`
and echo each line with its trailing character chopped; otherwise print the
raw address; then a newline. -/
def PrintStackTraceLine (env : Env) (symbol : Option String) (frame : Nat) : List Ev :=
  symEvents symbol ++
    (match env.executable with
      | some _ =>
        match env.popenRaw frame with
        | some stream =>
          (readChunks kLineMax stream).map fun c => Ev.transLine (String.mk (chopLast c))
        | none => []
      | none => [Ev.rawAddr frame]) ++
    [Ev.nl]

/-- The loop body of `PrintStack(void* frames[], int num_frames)` starting at
loop index `i`: print `#i`, then the line for the frame, for each frame. -/
def printFramesFrom (env : Env) : Nat → List Nat → List Ev
  | _, [] => []
  | i, a :: rest =>
    (Ev.frameIdx i :: PrintStackTraceLine env (env.symfn.map fun f => f a) a) ++
      printFramesFrom env (i + 1) rest

/-- `PrintStack(void* frames[], int num_frames)` (lines 133-141): obtain
symbols via `backtrace_symbols` and print each frame numbered from 0. -/
def PrintStackFrames (env : Env) (frames : List Nat) : List Ev :=
  printFramesFrom env 0 frames

/-- `backtrace(frames, maxFrames)`: capture up to `maxFrames` return
addresses of the current stack. -/
def backtraceM (env : Env) (maxFrames : Nat) : List Nat :=
  env.stack.take maxFrames

/-- `debug_env != nullptr && strlen(debug_env) > 0`. -/
def isDebug (env : Env) : Bool :=
  match env.debugEnv with
  | some s => decide (0 < s.length)
  | none => false

/-- The frames handed to the printing loop by the built-in path of
`PrintStack(int)`: `&frames[first_frames_to_skip]` with count
`num_frames - first_frames_to_skip`. -/
def capturedFrames (env : Env) (firstFramesToSkip : Nat) : List Nat :=
  (backtraceM env kMaxFrames).drop firstFramesToSkip

/-- `PrintStack(int first_frames_to_skip)` (lines 143-223).  When
`linux_dll || debug`, fork and exec gdb (the child writes its notice first);
a successful gdb exit returns immediately; otherwise the fallback notice is
printed and the built-in `backtrace` + `PrintStackTraceLine` path runs.
Without gdb involvement the built-in path runs directly. -/
def PrintStack (env : Env) (firstFramesToSkip : Nat) : List Ev :=
  if env.linuxDll || isDebug env then
    (if isDebug env then [Ev.gdbDebugNotice] else [Ev.gdbStackNotice]) ++
      (if env.gdbSucceeds then []
        else Ev.gdbFallback :: PrintStackFrames env (capturedFrames env firstFramesToSkip))
  else
    PrintStackFrames env (capturedFrames env firstFramesToSkip)

/-- `SaveStack(int* num_frames, int first_frames_to_skip)` (lines 230-239):
capture up to `kMaxFrames` frames, set `*num_frames = count - skip` (C `int`
arithmetic, modelled as `Int`), and copy that many frames starting at
`&frames[skip]` into fresh storage.  Returns the out-parameter value and the
saved frame list. -/
def SaveStack (env : Env) (firstFramesToSkip : Nat) : Int × List Nat :=
  let frames := backtraceM env kMaxFrames
  let numFrames : Int := (frames.length : Int) - (firstFramesToSkip : Int)
  (numFrames, (frames.drop firstFramesToSkip).take numFrames.toNat)

/-- `PrintAndFreeStack(void* callstack, int num_frames)` (lines 225-228):
print the first `num_frames` entries of the saved stack (then free it; the
free has no observable trace). -/
def PrintAndFreeStack (env : Env) (callstack : List Nat) (numFrames : Int) : List Ev :=
  PrintStackFrames env (callstack.take numFrames.toNat)

/-- `StackTraceHandler(int sig)` (lines 241-263): reset the signal's
disposition to default, print the signal info line, run `PrintStack(3)`, and
re-raise the signal — in exactly that order. -/
def StackTraceHandler (env : Env) (sig : Nat) : List Ev :=
  Ev.resetSignal sig :: Ev.sigInfo sig :: (PrintStack env 3 ++ [Ev.raiseSig sig])

/-- Observable effects of `InstallStackTraceHandler`. -/
inductive InstallEv where
  /-- `signal(s, StackTraceHandler)`. -/
  | register : Nat → InstallEv
  /-- `prctl(PR_SET_PTRACER, PR_SET_PTRACER_ANY, 0, 0, 0)`. -/
  | relaxPtrace : InstallEv
  deriving DecidableEq

/-- `InstallStackTraceHandler()` (lines 265-278): register the handler for
SIGILL, SIGSEGV, SIGBUS, SIGABRT (in that order) and relax ptrace
restrictions.  `sigResult` models the per-call success of the underlying
`signal` registrations; the code ignores the return value of `signal`, so the
trace does not depend on it. -/
def InstallStackTraceHandler (_sigResult : Nat → Bool) : List InstallEv :=
  [InstallEv.register SIGILL, InstallEv.register SIGSEGV, InstallEv.register SIGBUS,
    InstallEv.register SIGABRT, InstallEv.relaxPtrace]

/-- The signals registered by an install trace, in order. -/
def registeredSignals (evs : List InstallEv) : List Nat :=
  evs.filterMap fun e =>
    match e with
    | InstallEv.register s => some s
    | InstallEv.relaxPtrace => none

/-- State of the `static const char* executable = GetExecutableName()`
memoisation inside `PrintStackTraceLine`: `none` before first use, otherwise
the cached outcome of the single operating-system query. -/
structure LocState where
  cache : Option (Option String)
  deriving DecidableEq

/-- One symbolization call's view of the executable locator (lines 55-82
plus the function-local static at line 82): a cache hit returns the cached
value without touching the operating system; the first call performs the
`readlink` query (whose outcome is `os`) and caches it.  The `Bool` result
records whether the operating system was queried. -/
def GetExecutableName (os : Option String) (s : LocState) :
    Option String × LocState × Bool :=
  match s.cache with
  | some v => (v, s, false)
  | none => (os, LocState.mk (some os), true)

/-- A sequence of symbolization calls, each with the outcome the operating
system would give if queried at that moment; returns the value each call
observes and the total number of operating-system queries performed. -/
def runLocator : LocState → List (Option String) → List (Option String) × Nat
  | _, [] => ([], 0)
  | s, os :: rest =>
    let r := GetExecutableName os s
    let t := runLocator r.2.1 rest
    (r.1 :: t.1, (if r.2.2 then 1 else 0) + t.2)

/-- Project the frame-number events out of a trace. -/
def frameIdxProj : Ev → Option Nat
  | Ev.frameIdx i => some i
  | _ => none

/-- The sequence of frame numbers printed by a trace, in order. -/
def frameIdxs (evs : List Ev) : List Nat :=
  evs.filterMap frameIdxProj

/-- The signal-state control events (reset to default / re-raise) and the
signal info line of `StackTraceHandler`; everything else is ordinary
diagnostic output. -/
def isCtlEv : Ev → Bool
  | Ev.resetSignal _ => true
  | Ev.sigInfo _ => true
  | Ev.raiseSig _ => true
  | _ => false

/-- Environment with a known executable path whose `addr2line` launches all
fail (`popen` returns `nullptr`). -/
def envNoTool : Env :=
  { stack := [10, 20], executable := some "main", symfn := none,
    popenRaw := fun _ => none, debugEnv := none, linuxDll := false,
    gdbSucceeds := false }

/-- Environment in interactive debug mode (`ROCKSDB_DEBUG=1`) whose gdb
child fails. -/
def envDebugFail : Env :=
  { stack := [10, 20], executable := none, symfn := none,
    popenRaw := fun _ => none, debugEnv := some "1", linuxDll := false,
    gdbSucceeds := false }

/-- Stack-dump mode environment (`linux_dll` build, no `ROCKSDB_DEBUG`)
whose gdb child fails. -/
def envDump : Env :=
  { stack := [7, 8, 9], executable := none, symfn := none,
    popenRaw := fun _ => none, debugEnv := none, linuxDll := true,
    gdbSucceeds := false }

/-- Plain environment: default build, no debug flag, gdb never involved. -/
def envPlain : Env :=
  { stack := [5, 6, 7], executable := none, symfn := none,
    popenRaw := fun _ => none, debugEnv := none, linuxDll := false,
    gdbSucceeds := true }

/-! ### Helper lemmas -/

lemma mem_printStackTraceLine {env : Env} {s : Option String} {a : Nat} {e : Ev}
    (h : e ∈ PrintStackTraceLine env s a) :
    (∃ t, e = Ev.sym t) ∨ (∃ t, e = Ev.transLine t) ∨ e = Ev.rawAddr a ∨ e = Ev.nl := by
  unfold PrintStackTraceLine at h
  rcases List.mem_append.mp h with h | h
  · rcases List.mem_append.mp h with h | h
    · cases s with
      | none => simp [symEvents] at h
      | some t =>
        simp [symEvents] at h
        exact Or.inl ⟨t, h⟩
    · cases hex : env.executable with
      | none =>
        rw [hex] at h
        simp at h
        exact Or.inr (Or.inr (Or.inl h))
      | some ex =>
        rw [hex] at h
        cases hp : env.popenRaw a with
        | none =>
          rw [hp] at h
          simp at h
        | some stream =>
          rw [hp] at h
          rcases List.mem_map.mp h with ⟨c, _, rfl⟩
          exact Or.inr (Or.inl ⟨_, rfl⟩)
  · simp at h
    exact Or.inr (Or.inr (Or.inr h))

lemma frameIdxProj_printStackTraceLine {env : Env} {s : Option String} {a : Nat} :
    ∀ e ∈ PrintStackTraceLine env s a, frameIdxProj e = none := by
  intro e he
  rcases mem_printStackTraceLine he with ⟨t, rfl⟩ | ⟨t, rfl⟩ | rfl | rfl <;> rfl

lemma frameIdxs_printStackTraceLine (env : Env) (s : Option String) (a : Nat) :
    frameIdxs (PrintStackTraceLine env s a) = [] :=
  List.filterMap_eq_nil_iff.mpr frameIdxProj_printStackTraceLine

lemma frameIdxs_printFramesFrom (env : Env) (frames : List Nat) :
    ∀ i, frameIdxs (printFramesFrom env i frames) = List.range' i frames.length := by
  induction frames with
  | nil => intro i; simp [printFramesFrom, frameIdxs, List.range']
  | cons a rest ih =>
    intro i
    have hline := frameIdxs_printStackTraceLine env (env.symfn.map fun f => f a) a
    unfold frameIdxs at hline ⊢
    simp only [printFramesFrom, List.cons_append, List.filterMap_cons, List.filterMap_append,
      hline, frameIdxProj]
    have := ih (i + 1)
    unfold frameIdxs at this
    simp [this, List.range'_succ]

lemma frameIdxs_printStackFrames (env : Env) (frames : List Nat) :
    frameIdxs (PrintStackFrames env frames) = List.range frames.length := by
  rw [PrintStackFrames, frameIdxs_printFramesFrom, List.range_eq_range']

lemma isCtlEv_printFramesFrom (env : Env) (frames : List Nat) :
    ∀ i, ∀ e ∈ printFramesFrom env i frames, isCtlEv e = false := by
  induction frames with
  | nil => intro i e he; simp [printFramesFrom] at he
  | cons a rest ih =>
    intro i e he
    simp only [printFramesFrom, List.cons_append, List.mem_cons, List.mem_append] at he
    rcases he with rfl | he | he
    · rfl
    · rcases mem_printStackTraceLine he with ⟨t, rfl⟩ | ⟨t, rfl⟩ | rfl | rfl <;> rfl
    · exact ih (i + 1) e he

lemma isCtlEv_printStack (env : Env) (k : Nat) :
    ∀ e ∈ PrintStack env k, isCtlEv e = false := by
  intro e he
  unfold PrintStack at he
  split at he
  · rcases List.mem_append.mp he with h | h
    · split at h <;> simp at h <;> subst h <;> rfl
    · split at h
      · simp at h
      · rcases List.mem_cons.mp h with rfl | h
        · rfl
        · exact isCtlEv_printFramesFrom env _ 0 e h
  · exact isCtlEv_printFramesFrom env _ 0 e he

lemma takeLine_fst_length_le : ∀ (n : Nat) (l : List Char), (takeLine n l).1.length ≤ n := by
  intro n
  induction n with
  | zero => intro l; simp [takeLine]
  | succ m ih =>
    intro l
    cases l with
    | nil => simp [takeLine]
    | cons c rest =>
      by_cases hc : c = '\n'
      · simp [takeLine, hc]
      · simp only [takeLine, if_neg hc, List.length_cons]
        exact Nat.succ_le_succ (ih rest)

lemma takeLine_fst_ne_nil : ∀ (n : Nat) (c : Char) (rest : List Char),
    (takeLine (n + 1) (c :: rest)).1 ≠ [] := by
  intro n c rest
  by_cases hc : c = '\n' <;> simp [takeLine, hc]

lemma fgets_chunk_bounds {size : Nat} {input chunk rest : List Char}
    (hs : 2 ≤ size) (h : fgets size input = some (chunk, rest)) :
    1 ≤ chunk.length ∧ chunk.length ≤ size - 1 := by
  unfold fgets at h
  cases input with
  | nil => exact absurd h (by simp)
  | cons c tl =>
    simp only [Option.some.injEq] at h
    have h1 : chunk = (takeLine (size - 1) (c :: tl)).1 := by
      rw [h]
    obtain ⟨m, hm⟩ : ∃ m, size - 1 = m + 1 := ⟨size - 2, by omega⟩
    constructor
    · rw [h1, hm]
      have := takeLine_fst_ne_nil m c tl
      exact Nat.one_le_iff_ne_zero.mpr (by simpa [List.length_eq_zero] using this)
    · rw [h1]
      exact takeLine_fst_length_le (size - 1) (c :: tl)

lemma mem_readChunksGo {size : Nat} :
    ∀ (fuel : Nat) (input chunk : List Char), chunk ∈ readChunksGo size fuel input →
      ∃ inp rest, fgets size inp = some (chunk, rest) := by
  intro fuel
  induction fuel with
  | zero => intro input chunk h; simp [readChunksGo] at h
  | succ m ih =>
    intro input chunk h
    unfold readChunksGo at h
    cases hf : fgets size input with
    | none => rw [hf] at h; simp at h
    | some p =>
      rw [hf] at h
      rcases List.mem_cons.mp h with rfl | h
      · exact ⟨input, p.2, by rw [hf]⟩
      · exact ih p.2 chunk h

lemma runLocator_cached (v : Option String) :
    ∀ (l : List (Option String)),
      runLocator (LocState.mk (some v)) l = (List.replicate l.length v, 0) := by
  intro l
  induction l with
  | nil => rfl
  | cons os rest ih => simp [runLocator, GetExecutableName, ih, List.replicate_succ]

lemma capturedFrames_length (env : Env) (k : Nat) :
    (capturedFrames env k).length = (backtraceM env kMaxFrames).length - k := by
  simp [capturedFrames]

lemma backtraceM_length_le (env : Env) : (backtraceM env kMaxFrames).length ≤ kMaxFrames := by
  simp [backtraceM]

/-! ### Claim theorems -/

/-- C1: on delivery of a handled signal, the handler's trace is exactly:
reset the signal's disposition to default, then print the signal number and
description, then the capture-and-print cycle skipping 3 leading frames, then
re-raise the same signal — in that order; and the capture-and-print section
contains no signal-state control events, so the reset strictly precedes all
diagnostic output and the re-raise strictly follows it. -/
theorem handler_reset_precedes_diagnostics (env : Env) (sig : Nat) :
    StackTraceHandler env sig =
      Ev.resetSignal sig :: Ev.sigInfo sig :: (PrintStack env 3 ++ [Ev.raiseSig sig])
    ∧ ∀ e ∈ PrintStack env 3, isCtlEv e = false :=
  ⟨rfl, isCtlEv_printStack env 3⟩

/-- C2: for any skip value not exceeding the number of raw frames captured
(validity), the saved stack's out-parameter count is nonnegative, at most
`kMaxFrames - skip`, and at most `kMaxFrames`; likewise the frame list used
by `PrintStack`'s built-in path has length at most `kMaxFrames - skip` and at
most `kMaxFrames`. -/
theorem capture_count_bounds (env : Env) (k : Nat)
    (h : k ≤ (backtraceM env kMaxFrames).length) :
    (0 ≤ (SaveStack env k).1 ∧ (SaveStack env k).1 ≤ (kMaxFrames : Int) - (k : Int)
      ∧ (SaveStack env k).1 ≤ (kMaxFrames : Int))
    ∧ ((capturedFrames env k).length ≤ kMaxFrames - k
      ∧ (capturedFrames env k).length ≤ kMaxFrames) := by
  have hb := backtraceM_length_le env
  have hs1 : (SaveStack env k).1 =
      ((backtraceM env kMaxFrames).length : Int) - (k : Int) := rfl
  have hc := capturedFrames_length env k
  refine ⟨⟨?_, ?_, ?_⟩, ?_, ?_⟩ <;> simp only [hs1, hc] <;> omega

theorem capture_count_bounds_witness :
    1 ≤ (backtraceM envPlain kMaxFrames).length
    ∧ ((0 ≤ (SaveStack envPlain 1).1
        ∧ (SaveStack envPlain 1).1 ≤ (kMaxFrames : Int) - (1 : Int)
        ∧ (SaveStack envPlain 1).1 ≤ (kMaxFrames : Int))
      ∧ ((capturedFrames envPlain 1).length ≤ kMaxFrames - 1
        ∧ (capturedFrames envPlain 1).length ≤ kMaxFrames)) :=
  ⟨by decide, capture_count_bounds envPlain 1 (by decide)⟩

/-- C3 as stated is false at this input: the executable path is known but the
translator tool fails to launch (`popen` returns `nullptr`), and the frame's
raw numeric address is NOT printed — the frame entry is just the line
terminator. -/
theorem toolfail_prints_no_raw_address :
    ¬ Ev.rawAddr 10 ∈ PrintStackTraceLine envNoTool none 10 := by decide

/-- C3 (amended): when the external translator fails to launch, no crash or
hang occurs and the line is still terminated; the raw numeric address is
printed exactly when no executable path is known — with a known executable
path and a failed tool launch, the entry holds only the optional symbol and
the terminator, with no raw address. -/
theorem symbolizer_fallback (env : Env) (s : Option String) (frame : Nat)
    (h : env.popenRaw frame = none) :
    PrintStackTraceLine env s frame =
      symEvents s ++
        (match env.executable with
          | none => [Ev.rawAddr frame, Ev.nl]
          | some _ => [Ev.nl]) := by
  unfold PrintStackTraceLine
  cases hex : env.executable with
  | none => simp
  | some ex => simp [h]

theorem symbolizer_fallback_witness :
    envNoTool.popenRaw 10 = none
    ∧ PrintStackTraceLine envNoTool none 10 =
        symEvents none ++
          (match envNoTool.executable with
            | none => [Ev.rawAddr 10, Ev.nl]
            | some _ => [Ev.nl]) :=
  ⟨rfl, symbolizer_fallback envNoTool none 10 rfl⟩

/-- C4 as stated is false at this input: in interactive debug mode with a
failing gdb child, `PrintStack` does NOT simply return — the built-in
unwinder runs and prints frame entries. -/
theorem debug_mode_does_fall_back :
    Ev.frameIdx 0 ∈ PrintStack envDebugFail 0 := by decide

/-- C4 (amended): in interactive debug mode, only a successful gdb exit makes
`PrintStack` return without the built-in path; if gdb fails or exits
unsuccessfully, the parent prints the fallback notice and runs the built-in
unwinder and symbolizer, the same fallback as stack-dump mode (the
no-fallback `return` exists only inside the forked child after a failed
exec). -/
theorem debug_mode_outcome (env : Env) (k : Nat) (hd : isDebug env = true) :
    (env.gdbSucceeds = true → PrintStack env k = [Ev.gdbDebugNotice])
    ∧ (env.gdbSucceeds = false →
        PrintStack env k =
          Ev.gdbDebugNotice :: Ev.gdbFallback ::
            PrintStackFrames env (capturedFrames env k)) := by
  constructor <;> intro hg <;> simp [PrintStack, hd, hg]

theorem debug_mode_outcome_witness :
    isDebug envDebugFail = true
    ∧ ((envDebugFail.gdbSucceeds = true →
          PrintStack envDebugFail 0 = [Ev.gdbDebugNotice])
      ∧ (envDebugFail.gdbSucceeds = false →
          PrintStack envDebugFail 0 =
            Ev.gdbDebugNotice :: Ev.gdbFallback ::
              PrintStackFrames envDebugFail (capturedFrames envDebugFail 0))) :=
  ⟨by decide, debug_mode_outcome envDebugFail 0 (by decide)⟩

/-- C5: in stack-dump mode (`linux_dll` build, no debug flag), when the gdb
child does not exit successfully, `PrintStack` prints the fallback notice and
then the built-in unwinder+symbolizer output; the printed frame numbers are
exactly `0, 1, ...` up to the captured frame count, preceded by the notice. -/
theorem dump_mode_fallback (env : Env) (k : Nat)
    (hl : env.linuxDll = true) (hd : isDebug env = false)
    (hg : env.gdbSucceeds = false) :
    PrintStack env k =
      Ev.gdbStackNotice :: Ev.gdbFallback :: PrintStackFrames env (capturedFrames env k)
    ∧ frameIdxs (PrintStack env k) = List.range (capturedFrames env k).length := by
  have h1 : PrintStack env k =
      Ev.gdbStackNotice :: Ev.gdbFallback ::
        PrintStackFrames env (capturedFrames env k) := by
    simp [PrintStack, hl, hd, hg]
  refine ⟨h1, ?_⟩
  rw [h1]
  have h2 := frameIdxs_printStackFrames env (capturedFrames env k)
  simpa [frameIdxs, List.filterMap_cons, frameIdxProj] using h2

theorem dump_mode_fallback_witness :
    (envDump.linuxDll = true ∧ isDebug envDump = false ∧ envDump.gdbSucceeds = false)
    ∧ (PrintStack envDump 1 =
        Ev.gdbStackNotice :: Ev.gdbFallback ::
          PrintStackFrames envDump (capturedFrames envDump 1)
      ∧ frameIdxs (PrintStack envDump 1) = List.range (capturedFrames envDump 1).length) :=
  ⟨⟨rfl, rfl, rfl⟩, dump_mode_fallback envDump 1 rfl rfl rfl⟩

/-- C6: with the gdb path disengaged (default build, no debug flag) and a
valid skip value, saving a stack and immediately printing-and-releasing it
produces exactly the same event trace — in particular the same frame
addresses — as a direct `PrintStack` with the same skip value at the same
point. -/
theorem save_print_matches_direct (env : Env) (k : Nat)
    (hl : env.linuxDll = false) (hd : isDebug env = false)
    (hk : k ≤ (backtraceM env kMaxFrames).length) :
    PrintAndFreeStack env (SaveStack env k).2 (SaveStack env k).1 = PrintStack env k := by
  have hnum : (SaveStack env k).1 =
      ((backtraceM env kMaxFrames).length : Int) - (k : Int) := rfl
  have htn : (SaveStack env k).1.toNat = (backtraceM env kMaxFrames).length - k := by
    rw [hnum]; omega
  have hdroplen : ((backtraceM env kMaxFrames).drop k).length =
      (backtraceM env kMaxFrames).length - k := by simp
  have hsaved : (SaveStack env k).2 = (backtraceM env kMaxFrames).drop k := by
    show (((backtraceM env kMaxFrames).drop k).take (SaveStack env k).1.toNat) = _
    rw [htn, ← hdroplen, List.take_length]
  show PrintStackFrames env ((SaveStack env k).2.take (SaveStack env k).1.toNat) = _
  rw [hsaved, htn, ← hdroplen, List.take_length]
  simp [PrintStack, hl, hd, capturedFrames]

theorem save_print_matches_direct_witness :
    (envPlain.linuxDll = false ∧ isDebug envPlain = false
      ∧ 1 ≤ (backtraceM envPlain kMaxFrames).length)
    ∧ PrintAndFreeStack envPlain (SaveStack envPlain 1).2 (SaveStack envPlain 1).1 =
        PrintStack envPlain 1 :=
  ⟨⟨rfl, rfl, by decide⟩, save_print_matches_direct envPlain 1 rfl rfl (by decide)⟩

/-- C7: installation registers the fault handler for exactly the four signals
SIGILL, SIGSEGV, SIGBUS, SIGABRT (in that order), relaxes process-tracing
restrictions, and its trace is independent of the per-registration outcomes
of the underlying `signal` calls (no registration failure is surfaced). -/
theorem install_registers_fixed_set :
    (∀ r r' : Nat → Bool, InstallStackTraceHandler r = InstallStackTraceHandler r')
    ∧ registeredSignals (InstallStackTraceHandler fun _ => true) =
        [SIGILL, SIGSEGV, SIGBUS, SIGABRT]
    ∧ InstallEv.relaxPtrace ∈ InstallStackTraceHandler fun _ => true :=
  ⟨fun _ _ => rfl, rfl, by decide⟩

/-- C8: for any skip value `K`, the frame numbers printed for a stack
captured with skip `K` — whether printed directly by the built-in path or
through save-then-print-and-release — are `0, 1, 2, ...` relative to the
captured subsequence, independent of `K` and of the true stack depth. -/
theorem printed_frame_numbers_from_zero (env : Env) (k : Nat) :
    frameIdxs (PrintStackFrames env (capturedFrames env k)) =
      List.range (capturedFrames env k).length
    ∧ frameIdxs (PrintAndFreeStack env (SaveStack env k).2 (SaveStack env k).1) =
      List.range ((SaveStack env k).2.take (SaveStack env k).1.toNat).length :=
  ⟨frameIdxs_printStackFrames env _, frameIdxs_printStackFrames env _⟩

/-- C9: starting from the unresolved cache, a first symbolization call
queries the operating system exactly once and every call in the sequence —
however many follow, and whatever the operating system would have answered
later — observes the first call's result; the total query count over the
whole sequence is exactly 1. -/
theorem executable_resolved_once (os : Option String) (rest : List (Option String)) :
    runLocator (LocState.mk none) (os :: rest) =
      (List.replicate (rest.length + 1) os, 1) := by
  simp [runLocator, GetExecutableName, runLocator_cached, List.replicate_succ]

/-- C10: every chunk the symbolizer's read loop obtains from the external
tool's output stream is non-empty and of length at most `kLineMax - 1`, so
the newline-stripping store at index `length - 1` is always inside the
`line[kLineMax]` buffer and the index is never negative. -/
theorem chunk_store_in_bounds (stream chunk : List Char)
    (h : chunk ∈ readChunks kLineMax stream) :
    1 ≤ chunk.length ∧ chunk.length - 1 < kLineMax := by
  obtain ⟨inp, rest, hf⟩ := mem_readChunksGo _ _ _ h
  have hb := fgets_chunk_bounds (by decide) hf
  have hk : kLineMax = 256 := rfl
  omega

theorem chunk_store_in_bounds_witness :
    (['a'] ∈ readChunks kLineMax ['a'])
    ∧ (1 ≤ (['a'] : List Char).length ∧ (['a'] : List Char).length - 1 < kLineMax) :=
  ⟨by decide, chunk_store_in_bounds ['a'] ['a'] (by decide)⟩
